import Mathlib

/-!
Verification of the yryr-asset-sync sync engine and file-watch subsystem.

The definitions below are a shallow embedding of the Python sources:
src/utils/file_utils.py (pattern matching, staleness check, copy helpers),
src/core/sync_engine.py (single-file sync, the sequential and parallel
loops, preview) and src/core/file_watcher.py (debounce and event
handling). Filesystem effects are made explicit: a FileSystem value
stands for the state of the disk during a run, and a PrimEnv record says
which fallible primitives (the stat calls of the staleness check, the
backup, the copy) raise an exception during that run.
-/

namespace YrYr

/-- Components of a filesystem path; the Python code manipulates
pathlib.Path values, modelled as lists of path components. -/
abbrev FSPath := List String

/-- Rendering of a relative path with the separator, as str(rel_path)
prints it on POSIX. -/
def rel_path_str : FSPath → String
  | [] => ""
  | [x] => x
  | x :: rest => x ++ "/" ++ rel_path_str rest

/-- Helper for path_name: last separator-free run of characters. -/
def last_comp_aux : List Char → List Char → List Char
  | [], acc => acc.reverse
  | c :: rest, acc =>
    if c == '/' then last_comp_aux rest [] else last_comp_aux rest (c :: acc)

/-- Base name of a path string (pathlib Path.name). -/
def path_name (p : String) : String := String.mk (last_comp_aux p.toList [])

/-- Helper for split_components. -/
def split_comps_aux : List Char → List Char → List String
  | [], acc => [String.mk acc.reverse]
  | c :: rest, acc =>
    if c == '/' then String.mk acc.reverse :: split_comps_aux rest []
    else split_comps_aux rest (c :: acc)

/-- Splitting a configured sub-path such as "ui/buttons" into its
components. -/
def split_components (s : String) : List String := split_comps_aux s.toList []

/-- Base name of a relative path given as components. -/
def last_name (p : FSPath) : String := (p.getLast?).getD ""

/-- fnmatch.fnmatch glob matching restricted to the literal, star and
question-mark forms (character classes are not modelled); case
sensitive, as on POSIX. Fuel-based so that concrete runs reduce in the
kernel; every step shrinks the combined length of pattern and name, so
the wrapper below supplies enough fuel. -/
def fnmatch_aux : Nat → List Char → List Char → Bool
  | 0, _, _ => false
  | _ + 1, [], [] => true
  | _ + 1, [], _ :: _ => false
  | fuel + 1, p :: ps, s =>
    if p == '*' then
      match s with
      | [] => fnmatch_aux fuel ps []
      | c :: cs => fnmatch_aux fuel ps (c :: cs) || fnmatch_aux fuel ('*' :: ps) cs
    else
      match s with
      | [] => false
      | c :: cs =>
        if p == '?' then fnmatch_aux fuel ps cs
        else p == c && fnmatch_aux fuel ps cs

/-- Glob matching of a file name against a pattern. -/
def fnmatch (name pat : String) : Bool :=
  fnmatch_aux (pat.length + name.length + 1) pat.toList name.toList

/-- Abstract syntax of the regular-expression fragment modelled from
Python re: literal characters, the dot, grouping and the star. -/
inductive RE where
  | eps : RE
  | ch : Char → RE
  | dot : RE
  | seq : RE → RE → RE
  | star : RE → RE
deriving DecidableEq

/-- Characters the modelled fragment accepts as literals. -/
def regex_literal (c : Char) : Bool :=
  c.isAlphanum || c == '_' || c == '-' || c == ' ' || c == ':' ||
    c == '/' || c == ','

/-- Recursive-descent parsing of the modelled fragment. Patterns using
unsupported constructs fail to compile, as do the genuinely malformed
ones (unbalanced parentheses, a repeat with nothing before it): failure
to compile is how re.error is modelled. Returns the parsed expression
together with the unconsumed characters, stopping in front of a closing
parenthesis. -/
def parse_re_aux : Nat → List Char → Option (RE × List Char)
  | 0, _ => none
  | _ + 1, [] => some (.eps, [])
  | fuel + 1, c :: rest =>
    if c == ')' then some (.eps, c :: rest)
    else if c == '*' then none
    else
      match (if c == '(' then
               match parse_re_aux fuel rest with
               | some (a, ')' :: rest2) => some (a, rest2)
               | _ => none
             else if c == '.' then some (RE.dot, rest)
             else if regex_literal c then some (RE.ch c, rest)
             else none : Option (RE × List Char)) with
      | none => none
      | some (atom, rest2) =>
        match rest2 with
        | '*' :: rest3 =>
          match parse_re_aux fuel rest3 with
          | some (tail, rest4) => some (.seq (.star atom) tail, rest4)
          | none => none
        | _ =>
          match parse_re_aux fuel rest2 with
          | some (tail, rest4) => some (.seq atom tail, rest4)
          | none => none

/-- Compilation of a pattern string, none on malformed or unsupported
patterns (re.compile raising re.error). -/
def compile_regex (s : String) : Option RE :=
  match parse_re_aux (2 * s.length + 2) s.toList with
  | some (r, []) => some r
  | _ => none

/-- Structural size of an expression, used to bound the matcher fuel. -/
def re_size : RE → Nat
  | .eps => 1
  | .ch _ => 1
  | .dot => 1
  | .seq a b => re_size a + re_size b + 1
  | .star a => re_size a + 1

/-- Possible remainders after matching a prefix of the input against the
expression; character comparison is lowercased on both sides, modelling
re.IGNORECASE. -/
def re_match_aux : Nat → RE → List Char → List (List Char)
  | 0, _, _ => []
  | fuel + 1, r, s =>
    match r with
    | .eps => [s]
    | .ch c =>
      match s with
      | [] => []
      | x :: xs => if c.toLower == x.toLower then [xs] else []
    | .dot =>
      match s with
      | [] => []
      | _ :: xs => [xs]
    | .seq a b =>
      ((re_match_aux fuel a s).map (fun s2 => re_match_aux fuel b s2)).flatten
    | .star a =>
      s :: (((re_match_aux fuel a s).filter (fun s2 => s2.length < s.length)).map
        (fun s2 => re_match_aux fuel (.star a) s2)).flatten

/-- Suffixes of a string: the candidate search start points. -/
def tails_list : List Char → List (List Char)
  | [] => [[]]
  | c :: cs => (c :: cs) :: tails_list cs

/-- re.search with re.IGNORECASE on the modelled fragment: the pattern
may match starting at any position of the searched string. -/
def regex_search_ci (r : RE) (s : String) : Bool :=
  (tails_list s.toList).any
    (fun suf => !(re_match_aux (re_size r + suf.length + 1) r suf).isEmpty)

/-- Outcome of a Python computation that may raise an exception. -/
inductive PyResult (α : Type) where
  | ok : α → PyResult α
  | exc : String → PyResult α
deriving DecidableEq

/-- Bool test that one character list starts with another. -/
def list_starts_with : List Char → List Char → Bool
  | [], _ => true
  | _ :: _, [] => false
  | a :: as, b :: bs => a == b && list_starts_with as bs

/-- pattern.startswith of the regex tag (file_utils.py lines 162, 178). -/
def has_regex_tag (p : String) : Bool := list_starts_with "regex:".toList p.toList

/-- pattern with the six tag characters removed. -/
def drop_regex_tag (p : String) : String := String.mk (p.toList.drop 6)

/-- One pattern evaluated against a file name: a tagged pattern is a
case-insensitive regex search, raising re.error when the pattern does
not compile; an untagged pattern is a glob (file_utils.py lines 161-169
and 177-186). -/
def eval_one_pattern (pat fileName : String) : PyResult Bool :=
  if has_regex_tag pat then
    match compile_regex (drop_regex_tag pat) with
    | none => .exc "re.error"
    | some r => .ok (regex_search_ci r fileName)
  else .ok (fnmatch fileName pat)

/-- The pattern loops of match_patterns: first match wins, and an
exception from the pattern under examination propagates. -/
def any_pattern_matches (fileName : String) : List String → PyResult Bool
  | [] => .ok false
  | p :: rest =>
    match eval_one_pattern p fileName with
    | .exc m => .exc m
    | .ok true => .ok true
    | .ok false => any_pattern_matches fileName rest

/-- file_utils.match_patterns. The Python function receives a Path and
matches only on file_path.name, so the embedding takes the base name.
Excludes come first (a match excludes the file), then an empty include
list keeps every file, otherwise some include pattern has to match. -/
def match_patterns (fileName : String)
    (include_patterns exclude_patterns : List String) : PyResult Bool :=
  match any_pattern_matches fileName exclude_patterns with
  | .exc m => .exc m
  | .ok true => .ok false
  | .ok false =>
    if include_patterns.isEmpty then .ok true
    else any_pattern_matches fileName include_patterns

/-- A pattern that compiles: untagged, or tagged with a pattern the
modelled regex engine accepts. -/
def pattern_compiles (p : String) : Bool :=
  !has_regex_tag p || (compile_regex (drop_regex_tag p)).isSome

/-- Exception-free reading of one pattern, used to state the contract of
match_patterns; on compiling patterns it agrees with eval_one_pattern. -/
def pattern_matches_ok (fileName pat : String) : Bool :=
  if has_regex_tag pat then
    match compile_regex (drop_regex_tag pat) with
    | some r => regex_search_ci r fileName
    | none => false
  else fnmatch fileName pat

/-! Data model, from src/config/models.py. -/

/-- models.FilterRule. -/
structure FilterRule where
  include_patterns : List String := []
  exclude_patterns : List String := []
  enabled : Bool := true
deriving DecidableEq

/-- models.FileMappingRule. -/
structure FileMappingRule where
  id : String
  pattern : String
  target_subpath : String
  description : String := ""
  enabled : Bool := true
deriving DecidableEq

/-- Modelled from the spec: the FileRenameRule class is referenced by
sync_engine.py (import on line 12, field accesses in
_apply_rename_rules) but its declaration is missing from
src/config/models.py; the spec describes it as an exact source file
name, a replacement target file name and an enabled flag. -/
structure FileRenameRule where
  source_filename : String
  target_filename : String
  enabled : Bool := true
deriving DecidableEq

/-- models.FolderPair. The file_rename_rules field is modelled from the
spec (an ordered list of FileRenameRule owned by the pair) because the
field is read by sync_engine.py yet absent from the dataclass in
src/config/models.py, where only the UI attaches it dynamically. Paths
are kept as components. -/
structure FolderPair where
  id : String
  name : String
  source_path : FSPath
  target_path : FSPath
  filter_rule : FilterRule := {}
  file_mapping_rules : List FileMappingRule := []
  file_rename_rules : List FileRenameRule := []
  auto_sync : Bool := false
  backup_enabled : Bool := true
  last_sync : Option String := none
  enabled : Bool := true
deriving DecidableEq

/-- sync_engine.SyncOptions. -/
structure SyncOptions where
  force_copy : Bool := false
  create_backup : Bool := true
  preserve_timestamp : Bool := true
  max_workers : Nat := 4
  dry_run : Bool := false
deriving DecidableEq

/-- models.SyncResult; the duration and timestamp fields are wall-clock
bookkeeping and are not modelled. -/
structure SyncResult where
  success : Bool
  copied_files : List String := []
  skipped_files : List String := []
  error_files : List String := []
  total_size : Nat := 0
deriving DecidableEq

/-! The filesystem and the fallible primitives. -/

/-- What a stat call reports about a regular file. -/
structure FSFile where
  mtime : Int
  size : Nat
deriving DecidableEq

/-- The disk as the run observes it: a finite map from paths to regular
files. The claims proved against this embedding read the filesystem but
are all stated over a run during which it does not change. -/
structure FileSystem where
  files : List (FSPath × FSFile)
deriving DecidableEq

/-- Path.stat, none when the path does not exist. -/
def FileSystem.stat (fs : FileSystem) (p : FSPath) : Option FSFile :=
  (fs.files.find? (fun e => e.1 == p)).map (fun e => e.2)

/-- Path.exists. -/
def file_exists (fs : FileSystem) (p : FSPath) : Bool := (fs.stat p).isSome

/-- Which fallible operating-system primitives raise during one
single-file sync: an OSError out of the stat calls of the staleness
check (a file disappearing between its exists test and its stat), an
exception inside the backup copy, an exception inside the main copy. -/
structure PrimEnv where
  stalenessRaises : Bool := false
  backupRaises : Bool := false
  copyRaises : Bool := false
deriving DecidableEq

/-- file_utils.is_file_newer: false when the source does not exist, true
when the target does not exist, otherwise a strict comparison of the
modification times. -/
def is_file_newer (fs : FileSystem) (source_path target_path : FSPath) : Bool :=
  match fs.stat source_path with
  | none => false
  | some s =>
    match fs.stat target_path with
    | none => true
    | some t => t.mtime < s.mtime

/-- file_utils.copy_file_with_metadata: true on success; every
exception of the body (mkdir, shutil.copy2 - which raises when the
source is gone - or os.utime) is caught and turns into false. -/
def copy_file_with_metadata (fs : FileSystem) (env : PrimEnv)
    (source_path : FSPath) (_target_path : FSPath) : Bool :=
  !env.copyRaises && file_exists fs source_path

/-- file_utils.backup_file: none when the file does not exist or any
exception occurs, otherwise the timestamped sibling backup path (the
second-resolution timestamp of the name is abstracted). -/
def backup_file (fs : FileSystem) (env : PrimEnv) (file_path : FSPath) : Option FSPath :=
  if !file_exists fs file_path then none
  else if env.backupRaises then none
  else some (file_path.dropLast ++ ["backup", last_name file_path ++ "_ts"])

/-- SyncEngine._sync_single_file. The outer try-except of the Python
body can only fire out of the staleness check (the internal exceptions
of backup_file and copy_file_with_metadata are caught inside those
helpers), which the second guard models: an OSError there is caught and
becomes the error outcome. The backup result does not influence the
outcome. -/
def sync_single_file (fs : FileSystem) (env : PrimEnv) (opts : SyncOptions)
    (source_file target_file : FSPath) : String :=
  if opts.dry_run then "copied"
  else if !opts.force_copy && file_exists fs target_file && env.stalenessRaises then
    "error"
  else if !opts.force_copy && file_exists fs target_file &&
      !is_file_newer fs source_file target_file then
    "skipped"
  else
    let _bk : Option FSPath :=
      if opts.create_backup && file_exists fs target_file then
        backup_file fs env target_file
      else none
    if copy_file_with_metadata fs env source_file target_file then "copied"
    else "error"

/-! Destination computation, from sync_engine.py. -/

/-- SyncEngine._apply_rename_rules: first enabled rule whose source
file name equals the file name exactly replaces the final component of
the target path. -/
def apply_rename_rules (source_filename : String) (target_file : FSPath) :
    List FileRenameRule → FSPath
  | [] => target_file
  | r :: rest =>
    if r.enabled then
      if source_filename == r.source_filename then
        target_file.dropLast ++ [r.target_filename]
      else apply_rename_rules source_filename target_file rest
    else apply_rename_rules source_filename target_file rest

/-- The destination the engine computes for one scanned file (the loop
bodies of _sync_files_sequential and _sync_files_parallel, lines
188-196 and 239-246): the target root joined with the relative path,
then the rename rules when the pair has any. The pair's
file_mapping_rules are never consulted here. -/
def engine_target_file (fp : FolderPair) (rel : FSPath) : FSPath :=
  let target_file := fp.target_path ++ rel
  if fp.file_rename_rules.isEmpty then target_file
  else apply_rename_rules (last_name rel) target_file fp.file_rename_rules

/-- First enabled mapping rule matching the base name, in configured
order, following the spec wording for the mapping step. -/
def find_mapping_rule (fileName : String) :
    List FileMappingRule → Option FileMappingRule
  | [] => none
  | r :: rest =>
    if r.enabled && pattern_matches_ok fileName r.pattern then some r
    else find_mapping_rule fileName rest

/-- The destination the spec describes (section 4.3, step 2), written
from the spec words for comparison with engine_target_file: when some
enabled mapping rule matches the base name, the destination directory
becomes targetRoot/target_subpath while the file name is unchanged. -/
def spec_target_file_with_mapping (fp : FolderPair) (rel : FSPath) : FSPath :=
  match find_mapping_rule (last_name rel) fp.file_mapping_rules with
  | some r => fp.target_path ++ split_components r.target_subpath ++ [last_name rel]
  | none => fp.target_path ++ rel

/-! The sequential and parallel sync loops, from sync_engine.py. -/

/-- One outcome recorded into the result lists, as the classification
after _sync_single_file returns does it: the relative path string joins
the list named by the outcome, and a copied file adds its source size
to the byte total. -/
def record_outcome (fs : FileSystem) (source_file : FSPath) (rel : FSPath)
    (outcome : String) (acc : SyncResult) : SyncResult :=
  if outcome == "copied" then
    { acc with
      copied_files := acc.copied_files ++ [rel_path_str rel],
      total_size := acc.total_size + ((fs.stat source_file).map FSFile.size).getD 0 }
  else if outcome == "skipped" then
    { acc with skipped_files := acc.skipped_files ++ [rel_path_str rel] }
  else
    { acc with error_files := acc.error_files ++ [rel_path_str rel] }

/-- SyncEngine._sync_files_sequential: the loop, with the cooperative
cancellation flag read before each file as a function of the loop
index (the flag is set at most once by another thread and stays set,
so the function is how the loop observes it). env gives the primitive
failures of each file by its source path. -/
def sync_files_sequential_aux (fs : FileSystem) (env : FSPath → PrimEnv)
    (opts : SyncOptions) (fp : FolderPair) (cancelled : Nat → Bool) :
    List FSPath → Nat → SyncResult → SyncResult
  | [], _, acc => acc
  | rel :: rest, i, acc =>
    if cancelled i then acc
    else
      let source_file := fp.source_path ++ rel
      let target_file := engine_target_file fp rel
      let outcome := sync_single_file fs (env source_file) opts source_file target_file
      sync_files_sequential_aux fs env opts fp cancelled rest (i + 1)
        (record_outcome fs source_file rel outcome acc)

/-- SyncEngine._sync_files_sequential: starts from a result whose
success flag is True - the loop never updates that flag. -/
def sync_files_sequential (fs : FileSystem) (env : FSPath → PrimEnv)
    (opts : SyncOptions) (fp : FolderPair) (cancelled : Nat → Bool)
    (files : List FSPath) : SyncResult :=
  sync_files_sequential_aux fs env opts fp cancelled files 0 { success := true }

/-- The files the submission loop of _sync_files_parallel hands to the
executor: the scan prefix before the first positive cancellation
check. -/
def submitted_files (cancelled : Nat → Bool) : Nat → List FSPath → List FSPath
  | _, [] => []
  | i, rel :: rest =>
    if cancelled i then [] else rel :: submitted_files cancelled (i + 1) rest

/-- SyncEngine._sync_files_parallel. The consumption loop over
as_completed performs, file by file, the same classification as the
sequential body (same destination computation, same result recording),
in an order that is any permutation of the submitted files; the order
parameter stands for that completion order, and consume_cancelled for
the flag as read before consuming each completed unit. Whenever order
is a permutation of submitted_files submit_cancelled 0 files this is
the embedding of the Python function. -/
def sync_files_parallel (fs : FileSystem) (env : FSPath → PrimEnv)
    (opts : SyncOptions) (fp : FolderPair) (consume_cancelled : Nat → Bool)
    (order : List FSPath) : SyncResult :=
  sync_files_sequential_aux fs env opts fp consume_cancelled order 0 { success := true }

/-! Preview, from sync_engine.get_sync_preview. -/

/-- The preview dictionary restricted to the fields the claims are
about; files are recorded by their relative path, as the
relative_path entry of each file_info dictionary does. -/
structure SyncPreview where
  files_to_copy : List String := []
  files_to_skip : List String := []
  total_size : Nat := 0
deriving DecidableEq

/-- The classification loop of get_sync_preview: the destination is the
target root joined with the relative path (no rename rules here), and a
file whose destination exists without the source being newer would be
skipped, every other file would be copied and adds its size. -/
def get_sync_preview_aux (fs : FileSystem) (fp : FolderPair) :
    List FSPath → SyncPreview → SyncPreview
  | [], acc => acc
  | rel :: rest, acc =>
    let source_file := fp.source_path ++ rel
    let target_file := fp.target_path ++ rel
    let acc2 :=
      if file_exists fs target_file && !is_file_newer fs source_file target_file then
        { acc with files_to_skip := acc.files_to_skip ++ [rel_path_str rel] }
      else
        { acc with
          files_to_copy := acc.files_to_copy ++ [rel_path_str rel],
          total_size := acc.total_size + ((fs.stat source_file).map FSFile.size).getD 0 }
    get_sync_preview_aux fs fp rest acc2

/-- SyncEngine.get_sync_preview on an already scanned file list (both
the preview and a sync scan with _collect_sync_files, so on an
unchanged filesystem they receive the same list). -/
def get_sync_preview (fs : FileSystem) (fp : FolderPair) (files : List FSPath) :
    SyncPreview :=
  get_sync_preview_aux fs fp files {}

/-! The watch subsystem, from src/core/file_watcher.py. Timestamps are
abstract integer time units; the debounce window of 2.0 seconds becomes
the constant 2. -/

/-- file_watcher.WatchEvent. -/
structure WatchEvent where
  event_type : String
  file_path : String
  folder_pair_id : String
  timestamp : Int
deriving DecidableEq

/-- The per-handler debounce bookkeeping: _recent_events, an
insertion-ordered map from absolute path to the time of the last
recorded event. -/
structure DebounceState where
  recent_events : List (String × Int) := []
deriving DecidableEq

/-- SyncEventHandler._debounce_seconds. -/
def debounce_window : Int := 2

/-- Dictionary lookup in _recent_events. -/
def lookup_recent : List (String × Int) → String → Option Int
  | [], _ => none
  | e :: rest, p => if e.1 == p then some e.2 else lookup_recent rest p

/-- Dictionary assignment in _recent_events: update in place or append. -/
def set_recent : List (String × Int) → String → Int → List (String × Int)
  | [], p, t => [(p, t)]
  | e :: rest, p, t =>
    if e.1 == p then (p, t) :: rest else e :: set_recent rest p t

/-- SyncEventHandler._debounce_event: a repeat event for a path whose
last recorded event is less than the window ago is dropped without
touching the map; otherwise the path is stamped with the current time
and entries older than twice the window are evicted. Returns whether
the event is to be delivered, with the updated map. -/
def debounce_event (st : DebounceState) (file_path : String) (now : Int) :
    Bool × DebounceState :=
  match lookup_recent st.recent_events file_path with
  | some last =>
    if now - last < debounce_window then (false, st)
    else
      let updated := set_recent st.recent_events file_path now
      (true, ⟨updated.filter (fun e => decide (now - 2 * debounce_window ≤ e.2))⟩)
  | none =>
    let updated := set_recent st.recent_events file_path now
    (true, ⟨updated.filter (fun e => decide (now - 2 * debounce_window ≤ e.2))⟩)

/-- SyncEventHandler._should_process_file: directories are dropped, and
the file name has to pass the pair's filter patterns; an exception out
of match_patterns propagates. -/
def should_process_file (is_dir : Bool) (file_path : String) (fr : FilterRule) :
    PyResult Bool :=
  if is_dir then .ok false
  else match_patterns (path_name file_path) fr.include_patterns fr.exclude_patterns

/-- The state one handler and the watcher queue share: the debounce map
and the event queue that FileWatcher._add_event appends to. -/
structure HandlerState where
  debounce : DebounceState := {}
  queue : List WatchEvent := []
deriving DecidableEq

/-- SyncEventHandler.on_created and on_modified, which differ only in
the event type string: a directory or non-matching file is ignored, a
debounced repeat is dropped without being enqueued, and otherwise a
WatchEvent is appended to the watcher queue. An exception out of the
filter check escapes the handler before any state change. -/
def handle_file_event (event_type : String) (fr : FilterRule)
    (folder_pair_id : String) (is_dir : Bool) (file_path : String) (now : Int)
    (st : HandlerState) : HandlerState :=
  match should_process_file is_dir file_path fr with
  | .exc _ => st
  | .ok false => st
  | .ok true =>
    let res := debounce_event st.debounce file_path now
    if res.1 then
      { debounce := res.2,
        queue := st.queue ++ [⟨event_type, file_path, folder_pair_id, now⟩] }
    else { st with debounce := res.2 }

/-! Helper lemmas. -/

lemma eval_one_pattern_of_compiles (p f : String) (h : pattern_compiles p = true) :
    eval_one_pattern p f = .ok (pattern_matches_ok f p) := by
  unfold pattern_compiles at h
  unfold eval_one_pattern pattern_matches_ok
  by_cases hp : has_regex_tag p = true
  · simp only [hp, Bool.not_true, Bool.false_or] at h
    simp only [hp, if_true]
    cases hc : compile_regex (drop_regex_tag p) with
    | none => rw [hc] at h; simp at h
    | some r => simp
  · simp only [Bool.not_eq_true] at hp
    simp [hp]

lemma any_pattern_matches_of_compiles (f : String) (l : List String)
    (h : ∀ p ∈ l, pattern_compiles p = true) :
    any_pattern_matches f l = .ok (l.any (fun p => pattern_matches_ok f p)) := by
  induction l with
  | nil => simp [any_pattern_matches]
  | cons p rest ih =>
    have hp := h p (by simp)
    have hrest : ∀ q ∈ rest, pattern_compiles q = true := fun q hq => h q (by simp [hq])
    rw [any_pattern_matches, eval_one_pattern_of_compiles p f hp]
    cases hm : pattern_matches_ok f p with
    | false => simp [hm, ih hrest]
    | true => simp [hm]

/-! Claim theorems. -/

/-- Claim C4: match_patterns returns false whenever some exclude
pattern matches the base name - exclude wins unconditionally, even when
an include pattern also matches; otherwise it returns true when the
include list is empty, and else true exactly when at least one include
pattern matches; a tagged pattern is evaluated as a case-insensitive
regex search and an untagged one as a glob on the base name. Stated for
the patterns the modelled regex fragment compiles (so none of them
raises re.error). -/
theorem match_patterns_contract (f : String) (incl excl : List String)
    (he : ∀ p ∈ excl, pattern_compiles p = true)
    (hi : ∀ p ∈ incl, pattern_compiles p = true) :
    match_patterns f incl excl =
      .ok (if excl.any (fun p => pattern_matches_ok f p) then false
           else if incl.isEmpty then true
           else incl.any (fun p => pattern_matches_ok f p)) := by
  rw [match_patterns, any_pattern_matches_of_compiles f excl he]
  cases hex : excl.any (fun p => pattern_matches_ok f p) with
  | true => simp
  | false =>
    by_cases hinc : incl.isEmpty
    · simp [hinc]
    · simp [hinc, any_pattern_matches_of_compiles f incl hi]

/-- Witness for C4: the file icon.tmp matches the include pattern
regex:icon, yet the matching exclude pattern regex:tmp wins and the
result is false. -/
theorem match_patterns_contract_witness :
    ((∀ p ∈ (["regex:tmp"] : List String), pattern_compiles p = true) ∧
     (∀ p ∈ (["*.tmp", "regex:icon"] : List String), pattern_compiles p = true)) ∧
    match_patterns "icon.tmp" ["*.tmp", "regex:icon"] ["regex:tmp"] = .ok false :=
  ⟨⟨by decide, by decide⟩,
    (match_patterns_contract "icon.tmp" ["*.tmp", "regex:icon"] ["regex:tmp"]
      (by decide) (by decide)).trans (by decide)⟩

/-- Claim C5 (code bug): a malformed regex pattern does not behave as a
non-match - re.search raises re.error and match_patterns has no handler,
so the exception propagates and matching aborts. Here the claim would
demand the result ok true (empty include list), but the code raises. -/
theorem malformed_regex_raises :
    match_patterns "a.png" [] ["regex:("] = .exc "re.error" := by decide

/-- Claim C1: with forceCopy false (and an actual, non-dry run whose
staleness stat calls and copy do not hit an unrelated OS failure), a
single-file sync returns skipped exactly when the destination exists
and the source modification time is not strictly greater than the
destination modification time; when the source is strictly newer, or
the destination is missing, the file is copied. -/
theorem sync_single_file_staleness (fs : FileSystem) (env : PrimEnv)
    (opts : SyncOptions) (src tgt : FSPath) (sf : FSFile)
    (hforce : opts.force_copy = false) (hdry : opts.dry_run = false)
    (hsrc : fs.stat src = some sf)
    (hst : env.stalenessRaises = false) (hcp : env.copyRaises = false) :
    (sync_single_file fs env opts src tgt = "skipped" ↔
      ∃ tf, fs.stat tgt = some tf ∧ sf.mtime ≤ tf.mtime)
    ∧ (∀ tf, fs.stat tgt = some tf → tf.mtime < sf.mtime →
        sync_single_file fs env opts src tgt = "copied")
    ∧ (fs.stat tgt = none → sync_single_file fs env opts src tgt = "copied") := by
  unfold sync_single_file
  cases htg : fs.stat tgt with
  | none =>
    simp [hforce, hdry, hst, hcp, file_exists, htg, copy_file_with_metadata, hsrc]
  | some tf =>
    by_cases hlt : tf.mtime < sf.mtime
    · simp [hforce, hdry, hst, hcp, file_exists, htg, hsrc, is_file_newer, hlt,
        copy_file_with_metadata]
    · simp [hforce, hdry, hst, file_exists, htg, hsrc, is_file_newer, hlt]
      omega

/-- Witness for C1: source mtime 1 against destination mtime 5 is
skipped. -/
theorem sync_single_file_staleness_witness :
    sync_single_file ⟨[(["s", "a.png"], ⟨1, 10⟩), (["t", "a.png"], ⟨5, 10⟩)]⟩
      {} {} ["s", "a.png"] ["t", "a.png"] = "skipped" :=
  ((sync_single_file_staleness _ _ _ _ _ (⟨1, 10⟩ : FSFile) rfl rfl (by decide)
    rfl rfl).1).mpr ⟨⟨5, 10⟩, by decide, by decide⟩

/-- Claim C10: when the source no longer exists at sync time while the
destination exists and forceCopy is false, is_file_newer reports the
source as not newer and the outcome is skipped rather than an error or
a copy. -/
theorem missing_source_is_skipped (fs : FileSystem) (env : PrimEnv)
    (opts : SyncOptions) (src tgt : FSPath)
    (hsrc : fs.stat src = none) (htgt : file_exists fs tgt = true)
    (hforce : opts.force_copy = false) (hdry : opts.dry_run = false)
    (hst : env.stalenessRaises = false) :
    is_file_newer fs src tgt = false ∧
    sync_single_file fs env opts src tgt = "skipped" := by
  have hnew : is_file_newer fs src tgt = false := by
    unfold is_file_newer; rw [hsrc]
  refine ⟨hnew, ?_⟩
  unfold sync_single_file
  simp [hforce, hdry, hst, htgt, hnew]

/-- Witness for C10: the scanned source path is absent from the
filesystem while its destination exists; the file is skipped. -/
theorem missing_source_is_skipped_witness :
    sync_single_file ⟨[(["t", "a.png"], ⟨5, 10⟩)]⟩ {} {}
      ["s", "a.png"] ["t", "a.png"] = "skipped" :=
  (missing_source_is_skipped _ _ _ _ _ (by decide) (by decide) rfl rfl rfl).2

/-- Claim C9 (corrected): the single-file sync is total over
exceptions - it always returns exactly one of copied, skipped, error -
and an exception out of the staleness stat calls, or out of the copy,
is caught and becomes the error outcome; but an exception during the
backup is caught inside backup_file itself, treated as a failed backup,
and leaves the outcome untouched (it is not mapped to error). -/
theorem sync_single_file_totality (fs : FileSystem) (env : PrimEnv)
    (opts : SyncOptions) (src tgt : FSPath) :
    (sync_single_file fs env opts src tgt = "copied" ∨
     sync_single_file fs env opts src tgt = "skipped" ∨
     sync_single_file fs env opts src tgt = "error")
    ∧ (opts.dry_run = false → opts.force_copy = false →
        file_exists fs tgt = true → env.stalenessRaises = true →
        sync_single_file fs env opts src tgt = "error")
    ∧ (opts.dry_run = false → env.stalenessRaises = false → env.copyRaises = true →
        (opts.force_copy = true ∨ file_exists fs tgt = false ∨
          is_file_newer fs src tgt = true) →
        sync_single_file fs env opts src tgt = "error")
    ∧ (∀ b, sync_single_file fs { env with backupRaises := b } opts src tgt =
        sync_single_file fs env opts src tgt) := by
  refine ⟨?_, ?_, ?_, ?_⟩
  · unfold sync_single_file
    split
    · exact Or.inl rfl
    · split
      · exact Or.inr (Or.inr rfl)
      · split
        · exact Or.inr (Or.inl rfl)
        · split
          · exact Or.inl rfl
          · exact Or.inr (Or.inr rfl)
  · intro h1 h2 h3 h4
    unfold sync_single_file
    simp [h1, h2, h3, h4]
  · intro h1 h2 h3 hreach
    unfold sync_single_file
    rcases hreach with hf | hte | hnew
    · simp [h1, h2, h3, hf, copy_file_with_metadata]
    · simp [h1, h2, h3, hte, copy_file_with_metadata]
    · simp [h1, h2, h3, hnew, copy_file_with_metadata]
  · intro b
    rfl

/-- Witness for C9's theorem: an OSError during the staleness check of
an existing destination is mapped to the error outcome. -/
theorem sync_single_file_totality_witness :
    sync_single_file ⟨[(["t", "a.png"], ⟨1, 10⟩)]⟩ ⟨true, false, false⟩ {}
      ["s", "a.png"] ["t", "a.png"] = "error" :=
  (sync_single_file_totality _ _ _ _ _).2.1 rfl rfl (by decide) rfl

/-- Counterexample for C9 as stated: with create_backup on and an
existing, stale destination, the backup copy raises - backup_file
returns none - yet the outcome is copied, not the error the claim
demands for an exception raised by the backup. -/
theorem backup_exception_swallowed :
    sync_single_file ⟨[(["s", "a.png"], ⟨5, 10⟩), (["t", "a.png"], ⟨1, 10⟩)]⟩
      ⟨false, true, false⟩ {} ["s", "a.png"] ["t", "a.png"] = "copied" ∧
    backup_file ⟨[(["s", "a.png"], ⟨5, 10⟩), (["t", "a.png"], ⟨1, 10⟩)]⟩
      ⟨false, true, false⟩ ["t", "a.png"] = none ∧
    (⟨false, true, false⟩ : PrimEnv).backupRaises = true ∧
    ({} : SyncOptions).create_backup = true := by
  refine ⟨by decide, by decide, rfl, rfl⟩

/-- The multiset of outcome entries a result holds, across its three
lists. -/
def result_outcomes (r : SyncResult) : Multiset String :=
  (r.copied_files : Multiset String) + (r.skipped_files : Multiset String) +
    (r.error_files : Multiset String)

lemma record_outcome_outcomes (fs : FileSystem) (src rel : FSPath)
    (outcome : String) (acc : SyncResult) :
    result_outcomes (record_outcome fs src rel outcome acc) =
      result_outcomes acc + (↑[rel_path_str rel] : Multiset String) := by
  unfold record_outcome result_outcomes
  split
  · simp only []
    rw [← Multiset.coe_add]
    abel
  · split
    · simp only []
      rw [← Multiset.coe_add]
      abel
    · simp only []
      rw [← Multiset.coe_add]
      abel

lemma record_outcome_success (fs : FileSystem) (src rel : FSPath)
    (outcome : String) (acc : SyncResult) :
    (record_outcome fs src rel outcome acc).success = acc.success := by
  unfold record_outcome
  split
  · rfl
  · split
    · rfl
    · rfl

lemma seq_aux_success (fs : FileSystem) (env : FSPath → PrimEnv)
    (opts : SyncOptions) (fp : FolderPair) (cancelled : Nat → Bool)
    (files : List FSPath) :
    ∀ (i : Nat) (acc : SyncResult),
      (sync_files_sequential_aux fs env opts fp cancelled files i acc).success =
        acc.success := by
  induction files with
  | nil => intro i acc; rfl
  | cons rel rest ih =>
    intro i acc
    rw [sync_files_sequential_aux]
    by_cases h : cancelled i
    · simp [h]
    · simp [h, ih, record_outcome_success]

lemma seq_aux_outcomes_no_cancel (fs : FileSystem) (env : FSPath → PrimEnv)
    (opts : SyncOptions) (fp : FolderPair) (files : List FSPath) :
    ∀ (i : Nat) (acc : SyncResult),
      result_outcomes
          (sync_files_sequential_aux fs env opts fp (fun _ => false) files i acc) =
        result_outcomes acc + ↑(files.map rel_path_str) := by
  induction files with
  | nil => intro i acc; simp [sync_files_sequential_aux]
  | cons rel rest ih =>
    intro i acc
    rw [sync_files_sequential_aux]
    simp only [Bool.false_eq_true, if_false]
    rw [ih, record_outcome_outcomes]
    simp only [List.map_cons]
    rw [← Multiset.cons_coe, ← Multiset.singleton_add]
    rw [← Multiset.coe_singleton]
    abel

lemma seq_aux_outcomes_cancel_at (fs : FileSystem) (env : FSPath → PrimEnv)
    (opts : SyncOptions) (fp : FolderPair) (k : Nat) (files : List FSPath) :
    ∀ (i : Nat) (acc : SyncResult),
      result_outcomes
          (sync_files_sequential_aux fs env opts fp (fun j => decide (k ≤ j))
            files i acc) =
        result_outcomes acc + ↑((files.take (k - i)).map rel_path_str) := by
  induction files with
  | nil => intro i acc; simp [sync_files_sequential_aux]
  | cons rel rest ih =>
    intro i acc
    rw [sync_files_sequential_aux]
    by_cases hik : k ≤ i
    · have hz : k - i = 0 := Nat.sub_eq_zero_of_le hik
      simp [hik, hz]
    · have hpos : k - i = (k - (i + 1)) + 1 := by omega
      simp only [hik, decide_eq_true_eq, if_neg hik, decide_False]
      simp only [Bool.false_eq_true, if_false]
      rw [ih (i + 1), record_outcome_outcomes, hpos, List.take_succ_cons]
      simp only [List.map_cons]
      rw [← Multiset.cons_coe, ← Multiset.singleton_add]
      rw [← Multiset.coe_singleton]
      abel

lemma submitted_files_no_cancel (files : List FSPath) :
    ∀ i, submitted_files (fun _ => false) i files = files := by
  induction files with
  | nil => intro i; rfl
  | cons rel rest ih =>
    intro i
    rw [submitted_files]
    simp [ih]

/-- Claim C2: in a non-cancelled single-folder-pair sync run, the three
result lists partition the scanned files - each scanned file
contributes exactly one entry to exactly one list, none dropped or
duplicated. This holds for the sequential loop, and for the parallel
loop whatever completion order the executor produces (any permutation
of the submitted files, which absent cancellation are all the scanned
files). -/
theorem sync_result_partition (fs : FileSystem) (env : FSPath → PrimEnv)
    (opts : SyncOptions) (fp : FolderPair) (files order : List FSPath)
    (horder : order.Perm files) :
    result_outcomes (sync_files_sequential fs env opts fp (fun _ => false) files) =
      ↑(files.map rel_path_str)
    ∧ result_outcomes (sync_files_parallel fs env opts fp (fun _ => false) order) =
      ↑(files.map rel_path_str)
    ∧ submitted_files (fun _ => false) 0 files = files := by
  refine ⟨?_, ?_, submitted_files_no_cancel files 0⟩
  · rw [sync_files_sequential, seq_aux_outcomes_no_cancel]
    simp [result_outcomes]
  · rw [sync_files_parallel, seq_aux_outcomes_no_cancel]
    have hmap : (order.map rel_path_str).Perm (files.map rel_path_str) :=
      horder.map rel_path_str
    simp [result_outcomes, Multiset.coe_eq_coe.mpr hmap]

/-- Witness for C2: a two-file run, with the parallel completion order
reversed; both loops produce exactly one outcome entry per scanned
file. -/
theorem sync_result_partition_witness :
    result_outcomes
        (sync_files_sequential ⟨[]⟩ (fun _ => {}) {}
          { id := "p", name := "p", source_path := ["src"], target_path := ["tgt"] }
          (fun _ => false) [["a"], ["b"]]) =
      ↑(([["a"], ["b"]] : List FSPath).map rel_path_str) :=
  (sync_result_partition ⟨[]⟩ (fun _ => {}) {}
    { id := "p", name := "p", source_path := ["src"], target_path := ["tgt"] }
    [["a"], ["b"]] [["b"], ["a"]] (by decide)).1

lemma submitted_files_cancel_at (m : Nat) (files : List FSPath) :
    ∀ i, submitted_files (fun j => decide (m ≤ j)) i files =
      files.take (m - i) := by
  induction files with
  | nil => intro i; simp [submitted_files]
  | cons rel rest ih =>
    intro i
    rw [submitted_files]
    by_cases him : m ≤ i
    · have hz : m - i = 0 := Nat.sub_eq_zero_of_le him
      simp [him, hz]
    · have hpos : m - i = (m - (i + 1)) + 1 := by omega
      simp only [him, decide_False, Bool.false_eq_true, if_false]
      rw [ih (i + 1), hpos, List.take_succ_cons]

/-- Claim C6 (corrected): once the cancellation flag is observed after
k files have been processed, no further file work is dispatched, the
result holds exactly k outcomes and no exception is raised - in the
sequential loop (the outcomes of the first k scanned files), and in
the parallel loop both at submission (once the flag reads true at
index m, only the first m scanned files are handed to the executor)
and at consumption (only the first k completed units are recorded,
whatever completion order the executor produces). However in both
loops the result's success flag does not reflect whether any of those
outcomes were errors: each loop starts it at true and never updates
it. -/
theorem cancellation_partial_result (fs : FileSystem) (env : FSPath → PrimEnv)
    (opts : SyncOptions) (fp : FolderPair) (files order : List FSPath)
    (k m : Nat) :
    result_outcomes
        (sync_files_sequential fs env opts fp (fun i => decide (k ≤ i)) files) =
      ↑((files.take k).map rel_path_str)
    ∧ (sync_files_sequential fs env opts fp (fun i => decide (k ≤ i)) files).success =
      true
    ∧ result_outcomes
        (sync_files_parallel fs env opts fp (fun i => decide (k ≤ i)) order) =
      ↑((order.take k).map rel_path_str)
    ∧ (sync_files_parallel fs env opts fp (fun i => decide (k ≤ i)) order).success =
      true
    ∧ submitted_files (fun j => decide (m ≤ j)) 0 files = files.take m := by
  refine ⟨?_, ?_, ?_, ?_, ?_⟩
  · rw [sync_files_sequential, seq_aux_outcomes_cancel_at]
    simp [result_outcomes]
  · rw [sync_files_sequential, seq_aux_success]
  · rw [sync_files_parallel, seq_aux_outcomes_cancel_at]
    simp [result_outcomes]
  · rw [sync_files_parallel, seq_aux_success]
  · simpa using submitted_files_cancel_at m files 0

/-- Counterexample for C6 as stated: the flag is set after 1 of 2 files
was processed and that one file errored (its source is missing), yet
the result's success flag is true - it does not reflect the error
outcome the claim says it reflects. This happens identically in the
sequential loop and in the parallel loop's consumption of the same
completion order. -/
theorem cancellation_success_flag_counterexample :
    (sync_files_sequential ⟨[]⟩ (fun _ => {}) {}
        { id := "p", name := "p", source_path := ["src"], target_path := ["tgt"] }
        (fun i => decide (1 ≤ i)) [["a"], ["b"]]).error_files = ["a"] ∧
    (sync_files_sequential ⟨[]⟩ (fun _ => {}) {}
        { id := "p", name := "p", source_path := ["src"], target_path := ["tgt"] }
        (fun i => decide (1 ≤ i)) [["a"], ["b"]]).copied_files = [] ∧
    (sync_files_sequential ⟨[]⟩ (fun _ => {}) {}
        { id := "p", name := "p", source_path := ["src"], target_path := ["tgt"] }
        (fun i => decide (1 ≤ i)) [["a"], ["b"]]).skipped_files = [] ∧
    (sync_files_sequential ⟨[]⟩ (fun _ => {}) {}
        { id := "p", name := "p", source_path := ["src"], target_path := ["tgt"] }
        (fun i => decide (1 ≤ i)) [["a"], ["b"]]).success = true ∧
    (sync_files_parallel ⟨[]⟩ (fun _ => {}) {}
        { id := "p", name := "p", source_path := ["src"], target_path := ["tgt"] }
        (fun i => decide (1 ≤ i)) [["a"], ["b"]]).error_files = ["a"] ∧
    (sync_files_parallel ⟨[]⟩ (fun _ => {}) {}
        { id := "p", name := "p", source_path := ["src"], target_path := ["tgt"] }
        (fun i => decide (1 ≤ i)) [["a"], ["b"]]).copied_files = [] ∧
    (sync_files_parallel ⟨[]⟩ (fun _ => {}) {}
        { id := "p", name := "p", source_path := ["src"], target_path := ["tgt"] }
        (fun i => decide (1 ≤ i)) [["a"], ["b"]]).skipped_files = [] ∧
    (sync_files_parallel ⟨[]⟩ (fun _ => {}) {}
        { id := "p", name := "p", source_path := ["src"], target_path := ["tgt"] }
        (fun i => decide (1 ≤ i)) [["a"], ["b"]]).success = true := by
  refine ⟨by decide, by decide, by decide, by decide, by decide, by decide,
    by decide, by decide⟩

/-- Claim C3 (code bug): the engine never consults the pair's
file_mapping_rules when computing a destination - the loop bodies of
sync_engine.py apply only the rename rules - so a file whose base name
matches an enabled mapping rule is NOT redirected. At the failing
input (enabled rule with pattern button_star and target sub-path
ui/buttons, source file button_ok.png at the source root) the engine
computes target/button_ok.png while the configured mapping - written
out from the spec wording as spec_target_file_with_mapping - demands
target/ui/buttons/button_ok.png. -/
theorem mapping_rules_ignored_by_engine :
    engine_target_file
        { id := "p", name := "p", source_path := ["source"],
          target_path := ["target"],
          file_mapping_rules := [⟨"m1", "button_*", "ui/buttons", "", true⟩] }
        ["button_ok.png"] = ["target", "button_ok.png"] ∧
    spec_target_file_with_mapping
        { id := "p", name := "p", source_path := ["source"],
          target_path := ["target"],
          file_mapping_rules := [⟨"m1", "button_*", "ui/buttons", "", true⟩] }
        ["button_ok.png"] = ["target", "ui", "buttons", "button_ok.png"] ∧
    (["target", "button_ok.png"] : FSPath) ≠
      ["target", "ui", "buttons", "button_ok.png"] := by
  refine ⟨by decide, by decide, by decide⟩

/-- Exception-free classification of one file under forceCopy false on
a run without primitive failures for it: skipped when the destination
exists and the source is not newer, copied otherwise. -/
lemma single_file_classification (fs : FileSystem) (env : PrimEnv)
    (opts : SyncOptions) (src tgt : FSPath)
    (hforce : opts.force_copy = false) (hdry : opts.dry_run = false)
    (hst : env.stalenessRaises = false) (hcp : env.copyRaises = false)
    (hsrc : file_exists fs src = true) :
    sync_single_file fs env opts src tgt =
      if file_exists fs tgt && !is_file_newer fs src tgt then "skipped"
      else "copied" := by
  unfold sync_single_file
  by_cases hte : file_exists fs tgt
  · by_cases hnew : is_file_newer fs src tgt
    · simp [hforce, hdry, hst, hcp, hte, hnew, copy_file_with_metadata, hsrc]
    · simp [hforce, hdry, hst, hte, hnew]
  · simp [hforce, hdry, hst, hcp, hte, copy_file_with_metadata, hsrc]

lemma record_outcome_skipped (fs : FileSystem) (src rel : FSPath)
    (acc : SyncResult) :
    record_outcome fs src rel "skipped" acc =
      { acc with skipped_files := acc.skipped_files ++ [rel_path_str rel] } := rfl

lemma record_outcome_copied (fs : FileSystem) (src rel : FSPath)
    (acc : SyncResult) :
    record_outcome fs src rel "copied" acc =
      { acc with
        copied_files := acc.copied_files ++ [rel_path_str rel],
        total_size := acc.total_size + ((fs.stat src).map FSFile.size).getD 0 } := rfl

lemma preview_sync_aux_agree (fs : FileSystem) (env : FSPath → PrimEnv)
    (opts : SyncOptions) (fp : FolderPair)
    (hren : fp.file_rename_rules = [])
    (hforce : opts.force_copy = false) (hdry : opts.dry_run = false)
    (files : List FSPath) :
    ∀ (i : Nat) (accP : SyncPreview) (accS : SyncResult),
      (∀ rel ∈ files, file_exists fs (fp.source_path ++ rel) = true) →
      (∀ rel ∈ files, (env (fp.source_path ++ rel)).stalenessRaises = false ∧
          (env (fp.source_path ++ rel)).copyRaises = false) →
      accP.files_to_copy = accS.copied_files →
      accP.files_to_skip = accS.skipped_files →
      (get_sync_preview_aux fs fp files accP).files_to_copy =
          (sync_files_sequential_aux fs env opts fp (fun _ => false) files i
            accS).copied_files ∧
        (get_sync_preview_aux fs fp files accP).files_to_skip =
          (sync_files_sequential_aux fs env opts fp (fun _ => false) files i
            accS).skipped_files ∧
        (sync_files_sequential_aux fs env opts fp (fun _ => false) files i
            accS).error_files = accS.error_files := by
  induction files with
  | nil =>
    intro i accP accS _ _ hc hs
    exact ⟨hc, hs, rfl⟩
  | cons rel rest ih =>
    intro i accP accS hsrc henv hc hs
    have hsrc1 : file_exists fs (fp.source_path ++ rel) = true :=
      hsrc rel (by simp)
    have henv1 := henv rel (by simp)
    have hsrc2 : ∀ q ∈ rest, file_exists fs (fp.source_path ++ q) = true :=
      fun q hq => hsrc q (by simp [hq])
    have henv2 : ∀ q ∈ rest, (env (fp.source_path ++ q)).stalenessRaises = false ∧
        (env (fp.source_path ++ q)).copyRaises = false :=
      fun q hq => henv q (by simp [hq])
    have htgt : engine_target_file fp rel = fp.target_path ++ rel := by
      unfold engine_target_file
      simp [hren]
    have hout := single_file_classification fs (env (fp.source_path ++ rel)) opts
      (fp.source_path ++ rel) (fp.target_path ++ rel) hforce hdry henv1.1 henv1.2
      hsrc1
    rw [get_sync_preview_aux, sync_files_sequential_aux]
    simp only [Bool.false_eq_true, if_false, htgt, hout]
    by_cases hcond : (file_exists fs (fp.target_path ++ rel) &&
        !is_file_newer fs (fp.source_path ++ rel) (fp.target_path ++ rel)) = true
    · simp only [hcond, if_true, record_outcome_skipped]
      refine ih (i + 1) _ _ hsrc2 henv2 ?_ ?_
      · simpa using hc
      · simpa using hs
    · simp only [hcond, Bool.false_eq_true, if_false, record_outcome_copied]
      refine ih (i + 1) _ _ hsrc2 henv2 ?_ ?_
      · simpa using hc
      · simpa using hs

/-- Claim C7 (corrected): for a folder pair without rename rules, on an
unchanged filesystem whose scanned sources still exist, with the
options preview implicitly classifies under (forceCopy false, not a
dry run) and no primitive OS failures, the preview's would-copy and
would-skip lists coincide element for element, in order, with the
copied and skipped lists of a real sequential sync, whose error list is
empty - so no file is dropped or duplicated; and preview performs no
filesystem mutation (its embedding only reads the FileSystem value and
returns a SyncPreview). The correction: with rename rules present the
agreement fails, because get_sync_preview classifies against the
un-renamed destination - see preview_rename_divergence. -/
theorem preview_matches_sync (fs : FileSystem) (env : FSPath → PrimEnv)
    (opts : SyncOptions) (fp : FolderPair) (files : List FSPath)
    (hren : fp.file_rename_rules = [])
    (hforce : opts.force_copy = false) (hdry : opts.dry_run = false)
    (hsrc : ∀ rel ∈ files, file_exists fs (fp.source_path ++ rel) = true)
    (henv : ∀ rel ∈ files, (env (fp.source_path ++ rel)).stalenessRaises = false ∧
        (env (fp.source_path ++ rel)).copyRaises = false) :
    (get_sync_preview fs fp files).files_to_copy =
      (sync_files_sequential fs env opts fp (fun _ => false) files).copied_files ∧
    (get_sync_preview fs fp files).files_to_skip =
      (sync_files_sequential fs env opts fp (fun _ => false) files).skipped_files ∧
    (sync_files_sequential fs env opts fp (fun _ => false) files).error_files =
      [] := by
  exact preview_sync_aux_agree fs env opts fp hren hforce hdry files 0 {}
    { success := true } hsrc henv rfl rfl

/-- Witness for C7's theorem: two files, one stale and one fresh; the
preview and the real sequential sync agree list for list. -/
theorem preview_matches_sync_witness :
    (get_sync_preview
        ⟨[(["src", "a.png"], ⟨9, 4⟩), (["src", "b.png"], ⟨1, 6⟩),
          (["tgt", "a.png"], ⟨2, 4⟩), (["tgt", "b.png"], ⟨3, 6⟩)]⟩
        { id := "p", name := "p", source_path := ["src"], target_path := ["tgt"] }
        [["a.png"], ["b.png"]]).files_to_copy =
      (sync_files_sequential
        ⟨[(["src", "a.png"], ⟨9, 4⟩), (["src", "b.png"], ⟨1, 6⟩),
          (["tgt", "a.png"], ⟨2, 4⟩), (["tgt", "b.png"], ⟨3, 6⟩)]⟩
        (fun _ => {}) {}
        { id := "p", name := "p", source_path := ["src"], target_path := ["tgt"] }
        (fun _ => false) [["a.png"], ["b.png"]]).copied_files :=
  (preview_matches_sync _ (fun _ => {}) {} _ [["a.png"], ["b.png"]] rfl rfl rfl
    (by decide) (by intro rel _; exact ⟨rfl, rfl⟩)).1

/-- Counterexample for C7 as stated: a pair with the rename rule
icon.png to icon_final.png; the preview classifies icon.png as
would-skip (the un-renamed destination exists and is newer), yet the
real sync copies it (the renamed destination does not exist) - the
preview partition does not map 1:1 to the sync partition. -/
theorem preview_rename_divergence :
    (get_sync_preview
        ⟨[(["src", "icon.png"], ⟨1, 10⟩), (["tgt", "icon.png"], ⟨5, 10⟩)]⟩
        { id := "p", name := "p", source_path := ["src"], target_path := ["tgt"],
          file_rename_rules := [⟨"icon.png", "icon_final.png", true⟩] }
        [["icon.png"]]).files_to_skip = ["icon.png"] ∧
    (get_sync_preview
        ⟨[(["src", "icon.png"], ⟨1, 10⟩), (["tgt", "icon.png"], ⟨5, 10⟩)]⟩
        { id := "p", name := "p", source_path := ["src"], target_path := ["tgt"],
          file_rename_rules := [⟨"icon.png", "icon_final.png", true⟩] }
        [["icon.png"]]).files_to_copy = [] ∧
    (sync_files_sequential
        ⟨[(["src", "icon.png"], ⟨1, 10⟩), (["tgt", "icon.png"], ⟨5, 10⟩)]⟩
        (fun _ => {}) {}
        { id := "p", name := "p", source_path := ["src"], target_path := ["tgt"],
          file_rename_rules := [⟨"icon.png", "icon_final.png", true⟩] }
        (fun _ => false) [["icon.png"]]).copied_files = ["icon.png"] ∧
    (sync_files_sequential
        ⟨[(["src", "icon.png"], ⟨1, 10⟩), (["tgt", "icon.png"], ⟨5, 10⟩)]⟩
        (fun _ => {}) {}
        { id := "p", name := "p", source_path := ["src"], target_path := ["tgt"],
          file_rename_rules := [⟨"icon.png", "icon_final.png", true⟩] }
        (fun _ => false) [["icon.png"]]).skipped_files = [] := by
  refine ⟨by decide, by decide, by decide, by decide⟩

/-- Lookup of a freshly stamped path after the eviction sweep: the path
was not in the map before, its new entry survives any sweep that keeps
it, and lookup finds its timestamp. -/
lemma lookup_set_filter (l : List (String × Int)) (p : String) (t : Int)
    (keep : String × Int → Bool)
    (hl : lookup_recent l p = none) (hk : keep (p, t) = true) :
    lookup_recent ((set_recent l p t).filter keep) p = some t := by
  induction l with
  | nil =>
    simp [set_recent, List.filter_cons, hk, lookup_recent]
  | cons e rest ih =>
    rw [lookup_recent] at hl
    by_cases he : e.1 == p
    · rw [if_pos he] at hl
      exact absurd hl (by simp)
    · rw [if_neg he] at hl
      rw [set_recent, if_neg he, List.filter_cons]
      by_cases hke : keep e
      · simp only [hke, if_pos]
        rw [lookup_recent, if_neg he]
        exact ih hl
      · simp only [hke, Bool.false_eq_true, if_false]
        exact ih hl

/-- Claim C8: two create or modify events for the same absolute path,
the second arriving within the debounce window (strictly less than 2
time units after the first, recorded one), and the path a file passing
the pair's filter, produce exactly one enqueued WatchEvent: the first
is delivered, the second is suppressed and never enqueued. The theorem
covers both handler entry points, which differ only in the event type
string they stamp. -/
theorem debounce_suppresses_second_event (fr : FilterRule)
    (pid p ty1 ty2 : String) (t1 t2 : Int) (st0 : HandlerState)
    (hmatch : match_patterns (path_name p) fr.include_patterns
      fr.exclude_patterns = .ok true)
    (hfresh : lookup_recent st0.debounce.recent_events p = none)
    (h12 : t1 ≤ t2) (hwin : t2 - t1 < debounce_window) :
    (handle_file_event ty2 fr pid false p t2
        (handle_file_event ty1 fr pid false p t1 st0)).queue =
      st0.queue ++ [⟨ty1, p, pid, t1⟩] := by
  have hshould : should_process_file false p fr = .ok true := by
    unfold should_process_file
    simpa using hmatch
  have hkeep : (fun e : String × Int =>
      decide (t1 - 2 * debounce_window ≤ e.2)) (p, t1) = true := by
    simp only [decide_eq_true_eq]
    unfold debounce_window
    omega
  have hdb1 : debounce_event st0.debounce p t1 =
      (true, ⟨(set_recent st0.debounce.recent_events p t1).filter
        (fun e => decide (t1 - 2 * debounce_window ≤ e.2))⟩) := by
    unfold debounce_event
    rw [hfresh]
  have hst1 : handle_file_event ty1 fr pid false p t1 st0 =
      { debounce := ⟨(set_recent st0.debounce.recent_events p t1).filter
          (fun e => decide (t1 - 2 * debounce_window ≤ e.2))⟩,
        queue := st0.queue ++ [⟨ty1, p, pid, t1⟩] } := by
    unfold handle_file_event
    rw [hshould, hdb1]
    rfl
  have hlk : lookup_recent ((set_recent st0.debounce.recent_events p t1).filter
      (fun e => decide (t1 - 2 * debounce_window ≤ e.2))) p = some t1 :=
    lookup_set_filter st0.debounce.recent_events p t1 _ hfresh hkeep
  rw [hst1]
  unfold handle_file_event
  rw [hshould]
  unfold debounce_event
  simp only [hlk]
  rw [if_pos hwin]
  rfl

/-- Witness for C8: an empty handler state, two modify events on the
same watched file one time unit apart; exactly the first event sits in
the queue. -/
theorem debounce_suppresses_second_event_witness :
    (handle_file_event "modified" {} "pid" false "/w/a.png" 1
        (handle_file_event "modified" {} "pid" false "/w/a.png" 0 {})).queue =
      [⟨"modified", "/w/a.png", "pid", 0⟩] :=
  debounce_suppresses_second_event {} "pid" "/w/a.png" "modified" "modified"
    0 1 {} (by decide) rfl (by decide) (by decide)

end YrYr
